import Mathlib

/-!
Shallow embedding of the stateful HD-wallet implementation in
`wallet-crypto/src/wallet.rs` (rust-cardano).  Rust methods taking
`&mut self` become Lean functions threading an explicit `Wallet` value;
a Rust `.unwrap()` panic is modelled by returning `none` at top level;
fallible operations return `Except`.  The collaborating modules
(`bip44`, `hdwallet`, `hdpayload`, `address`, `tx`, `config`) are not
part of the source tree, so they are modelled from the specification's
contracts (§3, §4.1, §6), as noted on each definition.
-/

namespace Cardano

/-- Decidable equality for `Except`, used to evaluate the embedded
operations on concrete inputs. -/
instance {ε α : Type} [DecidableEq ε] [DecidableEq α] :
    DecidableEq (Except ε α) := fun x y =>
  match x, y with
  | .ok a, .ok b =>
      if h : a = b then .isTrue (congrArg Except.ok h)
      else .isFalse (fun hc => h (Except.ok.inj hc))
  | .error a, .error b =>
      if h : a = b then .isTrue (congrArg Except.error h)
      else .isFalse (fun hc => h (Except.error.inj hc))
  | .ok _, .error _ => .isFalse (fun hc => Except.noConfusion hc)
  | .error _, .ok _ => .isFalse (fun hc => Except.noConfusion hc)

namespace bip44

/-- Modelled from the spec: the two derivation chains of `bip44::AddrType`
(§3: "chain ∈ {External, Internal}"). -/
inductive AddrType where
  | Internal : AddrType
  | External : AddrType
deriving DecidableEq

/-- Modelled from the spec: `bip44::Addressing`, "a pair (chain, index:
non-negative integer below a hardened-derivation boundary)" (§3). -/
structure Addressing where
  addrType : AddrType
  index : Nat
deriving DecidableEq

/-- The hardened-derivation boundary (0x80000000); an Addressing index must
stay strictly below it (§3 invariants). -/
def boundary : Nat := 2147483648

/-- Modelled from the spec: `Addressing::new(index, type)` — `first(chain)`
is the Addressing at index 0 of that chain (§4.1). -/
def Addressing.new (i : Nat) (t : AddrType) : Addressing := ⟨t, i⟩

/-- Modelled from the spec: `Addressing::incr` — advance by `n`, failing
(RangeExceeded) when the hardened boundary would be crossed, never wrapping
(§4.1, §7). `none` is the RangeExceeded condition. -/
def Addressing.incr (a : Addressing) (n : Nat) : Option Addressing :=
  if a.index + n < boundary then some ⟨a.addrType, a.index + n⟩ else none

/-- Modelled from the spec: the `chain()` accessor, called
`address_type` in the source. -/
def Addressing.address_type (a : Addressing) : AddrType := a.addrType

/-- Numeric chain tag used in the raw path representation. -/
def AddrType.code : AddrType → Nat
  | .External => 0
  | .Internal => 1

/-- Modelled from the spec: `to_path()` — lossless conversion of an
Addressing to the raw derivation path (ordered sequence of path
components) consumed by key derivation and the path codec (§4.1). -/
def Addressing.to_path (a : Addressing) : List Nat :=
  [a.addrType.code, a.index]

/-- Modelled from the spec: `from_path()` — parse a raw derivation path
back into a valid Addressing, `none` when the bytes do not form one (§4.1,
§4.3 check 3). -/
def Addressing.from_path : List Nat → Option Addressing
  | [c, i] =>
      if i < boundary then
        match c with
        | 0 => some ⟨AddrType.External, i⟩
        | 1 => some ⟨AddrType.Internal, i⟩
        | _ => none
      else none
  | _ => none

end bip44

namespace hdwallet

/-- Modelled from the spec: the root secret seed (§3), opaque. -/
structure Seed where
  val : Nat
deriving DecidableEq

/-- Modelled from the spec: an extended private key of the Key Derivation
capability (§6) — determined by the seed it came from and the derivation
path folded into it; the signing math itself is opaque. -/
structure XPrv where
  seed : Nat
  path : List Nat
deriving DecidableEq

/-- Modelled from the spec: the public projection of a key (§6,
`public(key) -> PublicKey`); injective in (seed, path). -/
structure XPub where
  seed : Nat
  path : List Nat
deriving DecidableEq

/-- Modelled from the spec: `root_key(seed) -> RootKey` (§6). -/
def XPrv.generate_from_seed (s : Seed) : XPrv := ⟨s.val, []⟩

/-- Modelled from the spec: `derive(key, path_component) -> ChildKey`,
foldable over an ordered path (§6). -/
def XPrv.derive (k : XPrv) (i : Nat) : XPrv := ⟨k.seed, k.path ++ [i]⟩

/-- Modelled from the spec: `public` projection of an extended private
key (§6). -/
def XPrv.public (k : XPrv) : XPub := ⟨k.seed, k.path⟩

end hdwallet

namespace hdpayload

open hdwallet

/-- Modelled from the spec: the Path Codec capability, keyed to the
wallet's own recoverable public material (§6: `new(public_key) -> Codec`). -/
structure HDKey where
  pk : XPub
deriving DecidableEq

/-- Modelled from the spec: the opaque encrypted-path blob; decryptable
only under the codec that produced it (§6). -/
structure HDAddressPayload where
  key : XPub
  path : List Nat
deriving DecidableEq

/-- Modelled from the spec: `new(public_key) -> Codec` (§6). -/
def HDKey.new (p : XPub) : HDKey := ⟨p⟩

/-- Modelled from the spec: `encrypt(codec, path) -> Blob` (§6). -/
def HDKey.encrypt_path (k : HDKey) (p : List Nat) : HDAddressPayload :=
  ⟨k.pk, p⟩

/-- Modelled from the spec: `decrypt(codec, blob) -> Optional<path>`;
absence, not an error, signals "not decryptable with this key" (§6). -/
def HDKey.decrypt_path (k : HDKey) (b : HDAddressPayload) : Option (List Nat) :=
  if b.key = k.pk then some b.path else none

end hdpayload

namespace address

open hdwallet hdpayload

/-- Modelled from the spec: the address-type tag (§3); the source picks
`ATPubKey` in `make_address` and copies the candidate's own tag in
`recognize_address`, so the tag ranges over the standard Cardano address
kinds. -/
inductive AddrType where
  | ATPubKey : AddrType
  | ATScript : AddrType
  | ATRedeem : AddrType
deriving DecidableEq

/-- Modelled from the spec: spending data, "a commitment to a public
key" (§3); `PubKeyASD` is the variant the source constructs. -/
inductive SpendingData where
  | PubKeyASD : XPub → SpendingData
deriving DecidableEq

/-- Modelled from the spec: address attributes, "of which one attribute is
an optional opaque encrypted-path blob" (§3). -/
structure Attributes where
  derivation_path : Option HDAddressPayload
deriving DecidableEq

/-- Modelled from the spec: `Attributes::new_single_key` — attributes for a
single-key address carrying the optional encrypted-path blob. -/
def Attributes.new_single_key (_pk : XPub) (hdap : Option HDAddressPayload) :
    Attributes := ⟨hdap⟩

/-- Modelled from the spec: an Address is "a tagged value comprising an
address-type tag, spending data, and attributes; two addresses are equal
iff all fields are byte-identical" (§3). -/
structure ExtendedAddr where
  addr_type : AddrType
  spending : SpendingData
  attributes : Attributes
deriving DecidableEq

/-- Modelled from the spec: `ExtendedAddr::new` assembles the three
fields (§3, §4.2). -/
def ExtendedAddr.new (t : AddrType) (sd : SpendingData) (a : Attributes) :
    ExtendedAddr := ⟨t, sd, a⟩

end address

namespace config

/-- Modelled from the spec: the wallet "configuration value" (§3),
opaque to the core logic. -/
structure Config where
  protocol_magic : Nat
deriving DecidableEq

/-- Modelled from the spec: `Config::default()`. -/
def Config.default : Config := ⟨764824073⟩

end config

namespace tx

open hdwallet address config

/-- Modelled from the spec: a transaction output pairs an address with an
amount (§3). -/
structure TxOut where
  address : ExtendedAddr
  value : Nat
deriving DecidableEq

/-- Modelled from the spec: `TxOut::new(address, coin)`. -/
def TxOut.new (a : ExtendedAddr) (v : Nat) : TxOut := ⟨a, v⟩

/-- Modelled from the spec: a reference to a prior output (§3: "inputs
reference prior outputs"), opaque. -/
structure TxoPointer where
  id : Nat
  idx : Nat
deriving DecidableEq

/-- Modelled from the spec: a candidate input — the pointer to the
spent output together with that output's resolved value (`tx::Input`
with fields `ptr` and `value`). -/
structure Input where
  ptr : TxoPointer
  value : TxOut
deriving DecidableEq

/-- Modelled from the spec: a transaction — input references plus
outputs (§3). -/
structure Tx where
  inputs : List TxoPointer
  outputs : List TxOut
deriving DecidableEq

/-- Modelled from the spec: `Tx::new_with(inputs, outputs)`. -/
def Tx.new_with (ins : List TxoPointer) (outs : List TxOut) : Tx :=
  ⟨ins, outs⟩

/-- Modelled from the spec: `Tx::add_output` appends one output. -/
def Tx.add_output (t : Tx) (o : TxOut) : Tx :=
  { t with outputs := t.outputs ++ [o] }

/-- Modelled from the spec: a witness authorizes one input — produced by
`sign(config, key, transaction)` (§6); modelled as the abstract signature
record of (config, public key, signed transaction). -/
structure TxInWitness where
  cfg : Config
  pk : XPub
  signedTx : Tx
deriving DecidableEq

/-- Modelled from the spec: `TxInWitness::new(&config, &key, &tx)` —
signing the transaction with the given key (§6). -/
def TxInWitness.new (c : Config) (k : XPrv) (t : Tx) : TxInWitness :=
  ⟨c, k.public, t⟩

/-- Modelled from the spec: a signed bundle pairs a transaction with its
ordered witnesses (§3). -/
structure TxAux where
  tx : Tx
  witnesses : List TxInWitness
deriving DecidableEq

/-- Modelled from the spec: `TxAux::new(tx, witnesses)`. -/
def TxAux.new (t : Tx) (ws : List TxInWitness) : TxAux := ⟨t, ws⟩

namespace fee

/-- Modelled from the spec: the selection algorithm's own error kinds
(§7: "e.g. insufficient funds"). -/
inductive Error where
  | NotEnoughInput : Error
deriving DecidableEq

/-- Modelled from the spec: the pluggable coin-selection policy (§3);
the source uses `SelectionPolicy::default()`. -/
inductive SelectionPolicy where
  | FirstMatchFirst : SelectionPolicy
deriving DecidableEq

/-- Modelled from the spec: `SelectionPolicy::default()`. -/
def SelectionPolicy.default : SelectionPolicy := .FirstMatchFirst

/-- Modelled from the spec: a computed fee amount. -/
structure Fee where
  val : Nat
deriving DecidableEq

/-- Modelled from the spec: `Fee::to_coin()`. -/
def Fee.to_coin (f : Fee) : Nat := f.val

/-- Modelled from the spec: the linear fee formula (constant plus a
per-size coefficient). -/
structure LinearFee where
  constant : Nat
  coefficient : Nat
deriving DecidableEq

/-- Modelled from the spec: `LinearFee::default()`. -/
def LinearFee.default : LinearFee := ⟨155381, 44⟩

/-- Modelled from the spec: the fee/selection algorithm contract (§6):
`compute(policy, candidate_inputs, requested_outputs, change_address,
fee_address) -> Result<(Fee, SelectedInputs, Change), FeeError>` — it
returns a computed fee, the chosen inputs and the change amount, or fails
with a fee-calculation error when the candidate inputs cannot cover the
requested outputs plus the fee (§8 "Insufficient funds"). -/
def LinearFee.compute (alg : LinearFee) (_policy : SelectionPolicy)
    (inputs : List Input) (outputs : List TxOut)
    (_change_addr : ExtendedAddr) (_fee_addr : ExtendedAddr) :
    Except Error (Fee × List Input × Nat) :=
  let feeAmt := alg.constant + alg.coefficient * (inputs.length + outputs.length + 2)
  let tot := (inputs.map (fun i => i.value.value)).sum
  let out := (outputs.map (fun o => o.value)).sum
  if out + feeAmt ≤ tot then
    .ok (⟨feeAmt⟩, inputs, tot - out - feeAmt)
  else
    .error .NotEnoughInput

end fee

end tx

open bip44 hdwallet hdpayload address config tx

/-- The wallet error taxonomy, from `wallet.rs` lines 19–26. -/
inductive Error where
  | NotMyAddress_NoPayload : Error
  | NotMyAddress_CannotDecodePayload : Error
  | NotMyAddress_NotMyPublicKey : Error
  | NotMyAddress_InvalidAddressing : Error
  | FeeCalculationError : fee.Error → Error
deriving DecidableEq

/-- The Wallet state, from `wallet.rs` lines 34–42: seed, two optional
sequence cursors, configuration, selection policy. -/
structure Wallet where
  seed : Seed
  last_known_address : Option Addressing
  last_known_change : Option Addressing
  config : Config
  selection_policy : fee.SelectionPolicy
deriving DecidableEq

/-- `Wallet::new_from_seed`, lines 49–57. -/
def Wallet.new_from_seed (s : Seed) : Wallet :=
  ⟨s, none, none, Config.default, fee.SelectionPolicy.default⟩

/-- `force_last_known_address`, lines 61–63. -/
def Wallet.force_last_known_address (w : Wallet) (a : Addressing) : Wallet :=
  { w with last_known_address := some a }

/-- `force_last_known_change`, lines 67–69. -/
def Wallet.force_last_known_change (w : Wallet) (a : Addressing) : Wallet :=
  { w with last_known_change := some a }

/-- `get_root_key`, lines 214–216. -/
def Wallet.get_root_key (w : Wallet) : XPrv :=
  XPrv.generate_from_seed w.seed

/-- `get_hdkey`, lines 221–223. -/
def Wallet.get_hdkey (w : Wallet) : HDKey :=
  HDKey.new w.get_root_key.public

/-- `get_xprv`, lines 228–230: fold `derive` over the addressing's path
starting from the root key. -/
def Wallet.get_xprv (w : Wallet) (a : Addressing) : XPrv :=
  a.to_path.foldl XPrv.derive w.get_root_key

/-- `make_address`, lines 113–121: derive the public key at the
addressing, encrypt the path, and assemble a public-key address. -/
def Wallet.make_address (w : Wallet) (a : Addressing) : ExtendedAddr :=
  let pk := (w.get_xprv a).public
  let hdap := w.get_hdkey.encrypt_path a.to_path
  let addr_type := AddrType.ATPubKey
  let sd := SpendingData.PubKeyASD pk
  let attrs := Attributes.new_single_key pk (some hdap)
  ExtendedAddr.new addr_type sd attrs

/-- `new_address`, lines 77–89: start the external chain at index 0 when
the cursor is empty, else `incr(1).unwrap()`; the `unwrap` panic is
modelled as `none`. The cursor update is `force_last_known_address`. -/
def Wallet.new_address (w : Wallet) : Option (ExtendedAddr × Wallet) :=
  let addressing? := match w.last_known_address with
    | none => some (Addressing.new 0 AddrType.External)
    | some lkp => lkp.incr 1
  addressing?.map fun addressing =>
    let w1 := w.force_last_known_address addressing
    (w1.make_address addressing, w1)

/-- `new_change`, lines 97–109: start the internal chain at index 0 when
the change cursor is empty, else `incr(1).unwrap()` (panic modelled as
`none`).  NOTE: faithful to the source, the cursor update at line 106 is
`force_last_known_address`, not `force_last_known_change`. -/
def Wallet.new_change (w : Wallet) : Option (ExtendedAddr × Wallet) :=
  let addressing? := match w.last_known_change with
    | none => some (Addressing.new 0 AddrType.Internal)
    | some lkp => lkp.incr 1
  addressing?.map fun addressing =>
    let w1 := w.force_last_known_address addressing
    (w1.make_address addressing, w1)

/-- `recognize_address`, lines 131–164: the four ordered checks, then the
cursor update keyed on the recovered chain. -/
def Wallet.recognize_address (w : Wallet) (addr : ExtendedAddr) :
    Except Error Addressing × Wallet :=
  let hdkey := w.get_hdkey
  match addr.attributes.derivation_path with
  | none => (.error .NotMyAddress_NoPayload, w)
  | some hdpa =>
    match hdkey.decrypt_path hdpa with
    | none => (.error .NotMyAddress_CannotDecodePayload, w)
    | some path =>
      match Addressing.from_path path with
      | none => (.error .NotMyAddress_InvalidAddressing, w)
      | some addressing =>
        let xpub := (w.get_xprv addressing).public
        let addr2 := ExtendedAddr.new addr.addr_type
          (SpendingData.PubKeyASD xpub) addr.attributes
        if addr ≠ addr2 then (.error .NotMyAddress_NotMyPublicKey, w)
        else
          let w1 := if addressing.address_type = AddrType.Internal
            then w.force_last_known_change addressing
            else w.force_last_known_address addressing
          (.ok addressing, w1)

/-- `recognize_input`, lines 206–208. -/
def Wallet.recognize_input (w : Wallet) (input : Input) :
    Except Error Addressing × Wallet :=
  w.recognize_address input.value.address

/-- The witness-building loop of `new_transaction`, lines 191–198: for
each selected input in order, recognize it (threading the wallet state)
and sign the transaction with the re-derived key; the `?` on recognition
failure aborts, keeping the wallet mutations already made. -/
def signLoop (t : Tx) : List Input → Wallet →
    Except Error (List TxInWitness) × Wallet
  | [], w => (.ok [], w)
  | input :: rest, w =>
    match w.recognize_input input with
    | (.error e, w1) => (.error e, w1)
    | (.ok path, w1) =>
      let key := w1.get_xprv path
      let witness := TxInWitness.new w1.config key t
      match signLoop t rest w1 with
      | (.error e, w2) => (.error e, w2)
      | (.ok ws, w2) => (.ok (witness :: ws), w2)

/-- `new_transaction`, lines 171–201: generate a change address, run the
fee/selection algorithm, build the transaction (requested outputs, then
the fee output, then the change output), then sign each selected input in
order.  The outer `Option` is the `unwrap` panic inside `new_change`. -/
def Wallet.new_transaction (w : Wallet) (inputs : List Input)
    (outputs : List TxOut) (fee_addr : ExtendedAddr) :
    Option (Except Error TxAux × Wallet) :=
  let alg := fee.LinearFee.default
  w.new_change.map fun (change_addr, w1) =>
    match alg.compute w1.selection_policy inputs outputs change_addr fee_addr with
    | .error e => (.error (.FeeCalculationError e), w1)
    | .ok (feeAmt, selected_inputs, change) =>
      let t0 := Tx.new_with (selected_inputs.map (fun i => i.ptr))
        outputs
      let t1 := t0.add_output (TxOut.new fee_addr feeAmt.to_coin)
      let t2 := t1.add_output (TxOut.new change_addr change)
      match signLoop t2 selected_inputs w1 with
      | (.error e, w2) => (.error e, w2)
      | (.ok witnesses, w2) => (.ok (TxAux.new t2 witnesses), w2)

/-! ### Helper lemmas shared between the claim theorems -/

/-- Path conversion round-trips for any in-range Addressing. -/
lemma to_path_from_path (a : Addressing) (h : a.index < boundary) :
    Addressing.from_path a.to_path = some a := by
  cases a with
  | mk t i =>
      cases t <;>
        simp [Addressing.to_path, Addressing.from_path, AddrType.code,
          show i < boundary from h]

/-- Key derivation depends only on the wallet's seed. -/
lemma get_xprv_seed_eq (w1 w2 : Wallet) (a : Addressing)
    (h : w1.seed = w2.seed) : w1.get_xprv a = w2.get_xprv a := by
  simp [Wallet.get_xprv, Wallet.get_root_key, XPrv.generate_from_seed, h]

/-- The path codec key depends only on the wallet's seed. -/
lemma get_hdkey_seed_eq (w1 w2 : Wallet) (h : w1.seed = w2.seed) :
    w1.get_hdkey = w2.get_hdkey := by
  simp [Wallet.get_hdkey, Wallet.get_root_key, XPrv.generate_from_seed,
    XPrv.public, HDKey.new, h]

/-- Recognizing an address made by a same-seed wallet succeeds with the
original Addressing and performs exactly the chain-keyed cursor update. -/
lemma recognize_make_address (w wr : Wallet) (a : Addressing)
    (hseed : wr.seed = w.seed) (h : a.index < boundary) :
    wr.recognize_address (w.make_address a) =
      (.ok a,
        if a.address_type = AddrType.Internal
        then wr.force_last_known_change a
        else wr.force_last_known_address a) := by
  have hx : wr.get_xprv a = w.get_xprv a := get_xprv_seed_eq wr w a hseed
  have hk : wr.get_hdkey = w.get_hdkey := get_hdkey_seed_eq wr w hseed
  simp only [Wallet.recognize_address, Wallet.make_address,
    Attributes.new_single_key, ExtendedAddr.new, HDKey.encrypt_path, hk]
  simp [HDKey.decrypt_path, hx, to_path_from_path a h]

/-- A successfully decrypted blob is exactly the encryption of the
recovered path under the same codec. -/
lemma decrypt_path_some (k : HDKey) (b : HDAddressPayload) (p : List Nat)
    (h : k.decrypt_path b = some p) : b = k.encrypt_path p := by
  cases b with
  | mk bk bp =>
    unfold HDKey.decrypt_path at h
    by_cases hk : bk = k.pk
    · simp only [hk, if_pos] at h
      simp only [Option.some.injEq] at h
      simp [HDKey.encrypt_path, hk, h]
    · simp [hk] at h

/-- Address making depends only on the wallet's seed. -/
lemma make_address_seed_eq (w1 w2 : Wallet) (a : Addressing)
    (h : w1.seed = w2.seed) : w1.make_address a = w2.make_address a := by
  simp [Wallet.make_address, get_xprv_seed_eq w1 w2 a h,
    get_hdkey_seed_eq w1 w2 h]

/-- Parsing a raw path into an Addressing determines the path: a parsed
path is exactly the Addressing's own `to_path`. -/
lemma from_path_eq (p : List Nat) (a : Addressing)
    (h : Addressing.from_path p = some a) : p = a.to_path := by
  rcases p with _ | ⟨c, _ | ⟨i, _ | ⟨d, t⟩⟩⟩
  · simp [Addressing.from_path] at h
  · simp [Addressing.from_path] at h
  · rcases c with _ | _ | c
    · simp only [Addressing.from_path, Option.ite_none_right_eq_some,
        Option.some.injEq] at h
      obtain ⟨hi, ha⟩ := h
      subst ha
      simp [Addressing.to_path, AddrType.code]
    · simp only [Addressing.from_path, Option.ite_none_right_eq_some,
        Option.some.injEq] at h
      obtain ⟨hi, ha⟩ := h
      subst ha
      simp [Addressing.to_path, AddrType.code]
    · simp [Addressing.from_path] at h
  · simp [Addressing.from_path] at h

/-- Inversion of `new_change`: a non-panicking call produces the next
internal Addressing from the change cursor, stores it in
`last_known_address` (the source's line 106), and returns the address
made for it. -/
lemma new_change_inv (w : Wallet) (ca : ExtendedAddr) (w1 : Wallet)
    (h : w.new_change = some (ca, w1)) :
    ∃ a : Addressing,
      (w.last_known_change = none ∧ a = Addressing.new 0 AddrType.Internal ∨
        ∃ lkp, w.last_known_change = some lkp ∧ lkp.incr 1 = some a) ∧
      w1 = w.force_last_known_address a ∧
      ca = w1.make_address a := by
  unfold Wallet.new_change at h
  cases hc : w.last_known_change with
  | none =>
      rw [hc] at h
      simp only [Option.map_some', Option.some.injEq, Prod.mk.injEq] at h
      obtain ⟨h1, h2⟩ := h
      exact ⟨Addressing.new 0 AddrType.Internal, Or.inl ⟨rfl, rfl⟩,
        h2.symm, by rw [← h2]; exact h1.symm⟩
  | some lkp =>
      rw [hc] at h
      simp only at h
      cases hi : lkp.incr 1 with
      | none => rw [hi] at h; simp at h
      | some a =>
          rw [hi] at h
          simp only [Option.map_some', Option.some.injEq, Prod.mk.injEq] at h
          obtain ⟨h1, h2⟩ := h
          exact ⟨a, Or.inr ⟨lkp, rfl, hi⟩,
            h2.symm, by rw [← h2]; exact h1.symm⟩

/-- Inversion of a successful recognition: the candidate coincides with
the address rebuilt from its own tag and attributes around the re-derived
public key, its payload is the encryption of the recovered path, and the
new wallet state is the chain-keyed cursor update. -/
lemma recognize_address_ok_inv (w : Wallet) (c : ExtendedAddr)
    (a : Addressing) (w1 : Wallet)
    (hOk : w.recognize_address c = (.ok a, w1)) :
    c = ExtendedAddr.new c.addr_type
        (SpendingData.PubKeyASD ((w.get_xprv a).public)) c.attributes ∧
    c.attributes.derivation_path = some (w.get_hdkey.encrypt_path a.to_path) ∧
    w1 = (if a.address_type = AddrType.Internal
          then w.force_last_known_change a
          else w.force_last_known_address a) := by
  unfold Wallet.recognize_address at hOk
  cases hb : c.attributes.derivation_path with
  | none => simp only [hb] at hOk; simp at hOk
  | some b =>
    simp only [hb] at hOk
    cases hp : w.get_hdkey.decrypt_path b with
    | none => simp only [hp] at hOk; simp at hOk
    | some p =>
      simp only [hp] at hOk
      cases ha : Addressing.from_path p with
      | none => simp only [ha] at hOk; simp at hOk
      | some a0 =>
        simp only [ha] at hOk
        by_cases heq : c = ExtendedAddr.new c.addr_type
            (SpendingData.PubKeyASD ((w.get_xprv a0).public)) c.attributes
        · rw [if_neg (not_not.mpr heq)] at hOk
          have h1 : a0 = a := by
            have := congrArg Prod.fst hOk
            simpa using this
          subst h1
          have h2 : (if a0.address_type = AddrType.Internal
              then w.force_last_known_change a0
              else w.force_last_known_address a0) = w1 :=
            congrArg Prod.snd hOk
          refine ⟨heq, ?_, h2.symm⟩
          rw [decrypt_path_some _ _ _ hp, from_path_eq p a0 ha]
        · rw [if_pos heq] at hOk
          simp at hOk

/-- Signing a list of factory-made inputs succeeds: every recognition
recovers the original Addressing, the witnesses come out in input order
signed with the per-input re-derived keys, and the wallet ends in the
fold of the per-input cursor updates. -/
lemma signLoop_make_address (w : Wallet)
    (ins : List (TxoPointer × Addressing × Nat)) :
    ∀ wr : Wallet, wr.seed = w.seed → wr.config = w.config →
      (∀ pav ∈ ins, (pav.2.1 : Addressing).index < boundary) → ∀ t : Tx,
      signLoop t (ins.map fun pav =>
          (⟨pav.1, ⟨w.make_address pav.2.1, pav.2.2⟩⟩ : Input)) wr =
        (.ok (ins.map fun pav =>
            TxInWitness.new w.config (w.get_xprv pav.2.1) t),
          ins.foldl (fun wcur pav =>
            if (pav.2.1 : Addressing).address_type = AddrType.Internal
            then wcur.force_last_known_change pav.2.1
            else wcur.force_last_known_address pav.2.1) wr) := by
  induction ins with
  | nil => intro wr _ _ _ t; rfl
  | cons pav rest ih =>
    intro wr hs hc hrange t
    obtain ⟨ptr, a, v⟩ := pav
    simp only [List.map_cons, signLoop, Wallet.recognize_input]
    rw [recognize_make_address w wr a hs
      (hrange ⟨ptr, a, v⟩ (List.mem_cons_self _ _))]
    dsimp only
    have hs1 : (if a.address_type = AddrType.Internal
        then wr.force_last_known_change a
        else wr.force_last_known_address a).seed = w.seed := by
      split <;> simpa [Wallet.force_last_known_change,
        Wallet.force_last_known_address] using hs
    have hc1 : (if a.address_type = AddrType.Internal
        then wr.force_last_known_change a
        else wr.force_last_known_address a).config = w.config := by
      split <;> simpa [Wallet.force_last_known_change,
        Wallet.force_last_known_address] using hc
    rw [ih _ hs1 hc1 (fun p hp => hrange p (List.mem_cons_of_mem _ hp)) t]
    simp only [List.foldl_cons, List.map_cons]
    rw [hc1, get_xprv_seed_eq _ w a hs1]

/-! ### The claims -/

/-- C1: the claim says `new_change` updates the internal-chain cursor
(`last_known_change`) to the new Internal Addressing and leaves the
external-chain cursor (`last_known_address`) unchanged.  Evaluating the
source at a fresh wallet shows the opposite: line 106 calls
`force_last_known_address`, so the internal cursor stays empty and the
external cursor receives the Internal Addressing. -/
theorem C1_new_change_cursor_evaluation :
    (Wallet.new_from_seed ⟨0⟩).new_change.map
        (fun p => (p.2.last_known_change, p.2.last_known_address)) =
      some (none, some (Addressing.new 0 AddrType.Internal)) := by
  rfl

/-- C2: the claim says a generation call at the maximum permitted index
fails with a RangeExceeded error propagated to the caller, never
termination.  Evaluating the source at wallets whose cursors sit at index
0x7FFFFFFF shows both `new_address` and `new_change` hit the
`incr(1).unwrap()` panic (modelled `none`): no error value reaches the
caller (the wallet `Error` type has no range variant at all). -/
theorem C2_generation_panics_at_boundary :
    (Wallet.mk ⟨0⟩ (some (Addressing.new 2147483647 AddrType.External)) none
        Config.default fee.SelectionPolicy.default).new_address = none ∧
    (Wallet.mk ⟨0⟩ none (some (Addressing.new 2147483647 AddrType.Internal))
        Config.default fee.SelectionPolicy.default).new_change = none := by
  constructor <;> rfl

/-- C3: recognition round-trip — for any wallet and any Addressing
reachable from its seed (index below the hardened boundary), recognizing
the address the factory makes for it returns exactly that Addressing. -/
theorem C3_recognition_round_trip (w : Wallet) (a : Addressing)
    (h : a.index < boundary) :
    (w.recognize_address (w.make_address a)).1 = .ok a := by
  rw [recognize_make_address w w a rfl h]

/-- Witness for C3 at a concrete wallet and Addressing. -/
theorem C3_witness :
    (Addressing.new 5 AddrType.External).index < boundary ∧
    ((Wallet.new_from_seed ⟨2⟩).recognize_address
        ((Wallet.new_from_seed ⟨2⟩).make_address
          (Addressing.new 5 AddrType.External))).1 =
      .ok (Addressing.new 5 AddrType.External) :=
  ⟨by decide,
   C3_recognition_round_trip (Wallet.new_from_seed ⟨2⟩)
     (Addressing.new 5 AddrType.External) (by decide)⟩

/-- C8: starting from an empty external cursor, the first `new_address`
call yields the address for (External, 0), the second the address for
(External, 1), and the two differ. -/
theorem C8_sequential_generation (w : Wallet)
    (h : w.last_known_address = none) :
    ∃ a1 w1 a2 w2,
      w.new_address = some (a1, w1) ∧
      w1.new_address = some (a2, w2) ∧
      a1 = w.make_address (Addressing.new 0 AddrType.External) ∧
      a2 = w.make_address (Addressing.new 1 AddrType.External) ∧
      a1 ≠ a2 := by
  refine ⟨w.make_address (Addressing.new 0 AddrType.External),
    w.force_last_known_address (Addressing.new 0 AddrType.External),
    w.make_address (Addressing.new 1 AddrType.External),
    (w.force_last_known_address (Addressing.new 0 AddrType.External)).force_last_known_address
      (Addressing.new 1 AddrType.External),
    ?_, ?_, rfl, rfl, ?_⟩
  · unfold Wallet.new_address
    rw [h]
    simp only [Option.map_some', Option.some.injEq, Prod.mk.injEq]
    exact ⟨make_address_seed_eq _ w _ rfl, trivial⟩
  · unfold Wallet.new_address
    simp only [Wallet.force_last_known_address]
    have hincr : (Addressing.new 0 AddrType.External).incr 1 =
        some (Addressing.new 1 AddrType.External) := by decide
    simp only [hincr, Option.map_some', Option.some.injEq, Prod.mk.injEq]
    exact ⟨make_address_seed_eq _ w _ rfl, trivial⟩
  · intro hcontra
    have hpaths := congrArg (fun x => x.attributes.derivation_path) hcontra
    simp [Wallet.make_address, ExtendedAddr.new, Attributes.new_single_key,
      HDKey.encrypt_path, Addressing.to_path, Addressing.new,
      AddrType.code] at hpaths

/-- C5: recognition performs four ordered, short-circuiting checks and
returns the error of the first that fails: a missing encrypted-path
attribute yields NoPayload; an undecryptable attribute yields
CannotDecodePayload; decrypted bytes that do not parse into an Addressing
yield InvalidAddressing; a rebuilt address differing from the candidate
yields NotMyPublicKey. -/
theorem C5_recognition_error_order (w : Wallet) (addr : ExtendedAddr) :
    (addr.attributes.derivation_path = none →
      (w.recognize_address addr).1 = .error .NotMyAddress_NoPayload) ∧
    (∀ b, addr.attributes.derivation_path = some b →
      w.get_hdkey.decrypt_path b = none →
      (w.recognize_address addr).1 =
        .error .NotMyAddress_CannotDecodePayload) ∧
    (∀ b p, addr.attributes.derivation_path = some b →
      w.get_hdkey.decrypt_path b = some p →
      Addressing.from_path p = none →
      (w.recognize_address addr).1 =
        .error .NotMyAddress_InvalidAddressing) ∧
    (∀ b p a, addr.attributes.derivation_path = some b →
      w.get_hdkey.decrypt_path b = some p →
      Addressing.from_path p = some a →
      addr ≠ ExtendedAddr.new addr.addr_type
        (SpendingData.PubKeyASD ((w.get_xprv a).public)) addr.attributes →
      (w.recognize_address addr).1 =
        .error .NotMyAddress_NotMyPublicKey) := by
  refine ⟨?_, ?_, ?_, ?_⟩
  · intro h
    simp [Wallet.recognize_address, h]
  · intro b hb hd
    simp [Wallet.recognize_address, hb, hd]
  · intro b p hb hd hp
    simp [Wallet.recognize_address, hb, hd, hp]
  · intro b p a hb hd hp hne
    unfold Wallet.recognize_address
    simp only [hb, hd, hp]
    rw [if_pos hne]

/-- Witness for C5: each of the four recognition failures observed at a
concrete wallet and candidate address. -/
theorem C5_witness :
    ((Wallet.new_from_seed ⟨0⟩).recognize_address
        ⟨.ATPubKey, .PubKeyASD ⟨0, []⟩, ⟨none⟩⟩).1 =
      .error .NotMyAddress_NoPayload ∧
    ((Wallet.new_from_seed ⟨0⟩).recognize_address
        ⟨.ATPubKey, .PubKeyASD ⟨0, []⟩, ⟨some ⟨⟨1, []⟩, [0, 0]⟩⟩⟩).1 =
      .error .NotMyAddress_CannotDecodePayload ∧
    ((Wallet.new_from_seed ⟨0⟩).recognize_address
        ⟨.ATPubKey, .PubKeyASD ⟨0, []⟩, ⟨some ⟨⟨0, []⟩, [7]⟩⟩⟩).1 =
      .error .NotMyAddress_InvalidAddressing ∧
    ((Wallet.new_from_seed ⟨0⟩).recognize_address
        ⟨.ATPubKey, .PubKeyASD ⟨9, []⟩, ⟨some ⟨⟨0, []⟩, [0, 0]⟩⟩⟩).1 =
      .error .NotMyAddress_NotMyPublicKey :=
  ⟨(C5_recognition_error_order (Wallet.new_from_seed ⟨0⟩)
      ⟨.ATPubKey, .PubKeyASD ⟨0, []⟩, ⟨none⟩⟩).1 rfl,
   (C5_recognition_error_order (Wallet.new_from_seed ⟨0⟩)
      ⟨.ATPubKey, .PubKeyASD ⟨0, []⟩, ⟨some ⟨⟨1, []⟩, [0, 0]⟩⟩⟩).2.1
      ⟨⟨1, []⟩, [0, 0]⟩ rfl (by decide),
   (C5_recognition_error_order (Wallet.new_from_seed ⟨0⟩)
      ⟨.ATPubKey, .PubKeyASD ⟨0, []⟩, ⟨some ⟨⟨0, []⟩, [7]⟩⟩⟩).2.2.1
      ⟨⟨0, []⟩, [7]⟩ [7] rfl (by decide) (by decide),
   (C5_recognition_error_order (Wallet.new_from_seed ⟨0⟩)
      ⟨.ATPubKey, .PubKeyASD ⟨9, []⟩, ⟨some ⟨⟨0, []⟩, [0, 0]⟩⟩⟩).2.2.2
      ⟨⟨0, []⟩, [0, 0]⟩ [0, 0] (Addressing.new 0 AddrType.External)
      rfl (by decide) (by decide) (by decide)⟩

/-- C6 counterexample: a candidate that copies the factory address but
changes the address-type tag to `ATScript` is still recognized as Ok —
the fourth check rebuilds the comparison address from the candidate's own
tag — yet it is not byte-identical to the Address Factory output. -/
theorem C6_counterexample :
    ((Wallet.new_from_seed ⟨0⟩).recognize_address
        { (Wallet.new_from_seed ⟨0⟩).make_address
            (Addressing.new 0 AddrType.External) with
          addr_type := address.AddrType.ATScript }).1 =
      .ok (Addressing.new 0 AddrType.External) ∧
    { (Wallet.new_from_seed ⟨0⟩).make_address
        (Addressing.new 0 AddrType.External) with
      addr_type := address.AddrType.ATScript } ≠
      (Wallet.new_from_seed ⟨0⟩).make_address
        (Addressing.new 0 AddrType.External) := by
  decide

/-- C6 amended: whenever recognition returns Ok(A) for a candidate c, c
equals the address rebuilt from its OWN type tag and attributes around
the re-derived public-key commitment, and its payload is exactly the
re-encryption of A's path — but c need not carry the type tag the
Address Factory would produce, so it is not necessarily byte-identical
to `make_address(W, A)`. -/
theorem C6_amended_recognition_rebuild (w : Wallet) (c : ExtendedAddr)
    (a : Addressing) (w1 : Wallet)
    (hOk : w.recognize_address c = (.ok a, w1)) :
    c = ExtendedAddr.new c.addr_type
        (SpendingData.PubKeyASD ((w.get_xprv a).public)) c.attributes ∧
    c.attributes.derivation_path =
      some (w.get_hdkey.encrypt_path a.to_path) :=
  ⟨(recognize_address_ok_inv w c a w1 hOk).1,
   (recognize_address_ok_inv w c a w1 hOk).2.1⟩

/-- Witness for the amended C6 at a concrete recognition. -/
theorem C6_amended_witness :
    (Wallet.new_from_seed ⟨0⟩).recognize_address
        ((Wallet.new_from_seed ⟨0⟩).make_address
          (Addressing.new 0 AddrType.External)) =
      (.ok (Addressing.new 0 AddrType.External),
        (Wallet.new_from_seed ⟨0⟩).force_last_known_address
          (Addressing.new 0 AddrType.External)) ∧
    ((Wallet.new_from_seed ⟨0⟩).make_address
        (Addressing.new 0 AddrType.External) =
      ExtendedAddr.new
        ((Wallet.new_from_seed ⟨0⟩).make_address
          (Addressing.new 0 AddrType.External)).addr_type
        (SpendingData.PubKeyASD
          (((Wallet.new_from_seed ⟨0⟩).get_xprv
            (Addressing.new 0 AddrType.External)).public))
        ((Wallet.new_from_seed ⟨0⟩).make_address
          (Addressing.new 0 AddrType.External)).attributes ∧
     ((Wallet.new_from_seed ⟨0⟩).make_address
        (Addressing.new 0 AddrType.External)).attributes.derivation_path =
      some ((Wallet.new_from_seed ⟨0⟩).get_hdkey.encrypt_path
        (Addressing.new 0 AddrType.External).to_path)) :=
  ⟨by decide,
   C6_amended_recognition_rebuild (Wallet.new_from_seed ⟨0⟩)
     ((Wallet.new_from_seed ⟨0⟩).make_address
       (Addressing.new 0 AddrType.External))
     (Addressing.new 0 AddrType.External)
     ((Wallet.new_from_seed ⟨0⟩).force_last_known_address
       (Addressing.new 0 AddrType.External))
     (by decide)⟩

/-- C7: on successful recognition exactly one cursor — chosen by the
recovered Addressing's chain — is replaced unconditionally with the
recovered value (Internal → internal cursor, else external cursor); the
other cursor, the seed, the configuration and the selection policy are
unchanged. -/
theorem C7_cursor_update_on_recognition (w : Wallet) (c : ExtendedAddr)
    (a : Addressing) (w1 : Wallet)
    (hOk : w.recognize_address c = (.ok a, w1)) :
    (a.address_type = AddrType.Internal →
      w1.last_known_change = some a ∧
      w1.last_known_address = w.last_known_address) ∧
    (a.address_type ≠ AddrType.Internal →
      w1.last_known_address = some a ∧
      w1.last_known_change = w.last_known_change) ∧
    w1.seed = w.seed ∧ w1.config = w.config ∧
    w1.selection_policy = w.selection_policy := by
  have h := (recognize_address_ok_inv w c a w1 hOk).2.2
  subst h
  refine ⟨?_, ?_, ?_⟩
  · intro hi
    rw [if_pos hi]
    exact ⟨rfl, rfl⟩
  · intro hi
    rw [if_neg hi]
    exact ⟨rfl, rfl⟩
  · by_cases hi : a.address_type = AddrType.Internal <;>
      simp [hi, Wallet.force_last_known_change,
        Wallet.force_last_known_address]

/-- Witness for C7: recognizing an Internal address at index 3 on a
wallet whose internal cursor already sits at index 9 (the replacement is
unconditional, even moving the cursor backward). -/
theorem C7_witness :
    ((Addressing.new 3 AddrType.Internal).address_type =
        AddrType.Internal →
      ((Wallet.mk ⟨0⟩ (some (Addressing.new 9 AddrType.External))
          (some (Addressing.new 9 AddrType.Internal)) Config.default
          fee.SelectionPolicy.default).force_last_known_change
        (Addressing.new 3 AddrType.Internal)).last_known_change =
        some (Addressing.new 3 AddrType.Internal) ∧
      ((Wallet.mk ⟨0⟩ (some (Addressing.new 9 AddrType.External))
          (some (Addressing.new 9 AddrType.Internal)) Config.default
          fee.SelectionPolicy.default).force_last_known_change
        (Addressing.new 3 AddrType.Internal)).last_known_address =
        (Wallet.mk ⟨0⟩ (some (Addressing.new 9 AddrType.External))
          (some (Addressing.new 9 AddrType.Internal)) Config.default
          fee.SelectionPolicy.default).last_known_address) ∧
    ((Addressing.new 3 AddrType.Internal).address_type ≠
        AddrType.Internal →
      ((Wallet.mk ⟨0⟩ (some (Addressing.new 9 AddrType.External))
          (some (Addressing.new 9 AddrType.Internal)) Config.default
          fee.SelectionPolicy.default).force_last_known_change
        (Addressing.new 3 AddrType.Internal)).last_known_address =
        some (Addressing.new 3 AddrType.Internal) ∧
      ((Wallet.mk ⟨0⟩ (some (Addressing.new 9 AddrType.External))
          (some (Addressing.new 9 AddrType.Internal)) Config.default
          fee.SelectionPolicy.default).force_last_known_change
        (Addressing.new 3 AddrType.Internal)).last_known_change =
        (Wallet.mk ⟨0⟩ (some (Addressing.new 9 AddrType.External))
          (some (Addressing.new 9 AddrType.Internal)) Config.default
          fee.SelectionPolicy.default).last_known_change) ∧
    ((Wallet.mk ⟨0⟩ (some (Addressing.new 9 AddrType.External))
        (some (Addressing.new 9 AddrType.Internal)) Config.default
        fee.SelectionPolicy.default).force_last_known_change
      (Addressing.new 3 AddrType.Internal)).seed =
      (Wallet.mk ⟨0⟩ (some (Addressing.new 9 AddrType.External))
        (some (Addressing.new 9 AddrType.Internal)) Config.default
        fee.SelectionPolicy.default).seed ∧
    ((Wallet.mk ⟨0⟩ (some (Addressing.new 9 AddrType.External))
        (some (Addressing.new 9 AddrType.Internal)) Config.default
        fee.SelectionPolicy.default).force_last_known_change
      (Addressing.new 3 AddrType.Internal)).config =
      (Wallet.mk ⟨0⟩ (some (Addressing.new 9 AddrType.External))
        (some (Addressing.new 9 AddrType.Internal)) Config.default
        fee.SelectionPolicy.default).config ∧
    ((Wallet.mk ⟨0⟩ (some (Addressing.new 9 AddrType.External))
        (some (Addressing.new 9 AddrType.Internal)) Config.default
        fee.SelectionPolicy.default).force_last_known_change
      (Addressing.new 3 AddrType.Internal)).selection_policy =
      (Wallet.mk ⟨0⟩ (some (Addressing.new 9 AddrType.External))
        (some (Addressing.new 9 AddrType.Internal)) Config.default
        fee.SelectionPolicy.default).selection_policy :=
  C7_cursor_update_on_recognition
    (Wallet.mk ⟨0⟩ (some (Addressing.new 9 AddrType.External))
      (some (Addressing.new 9 AddrType.Internal)) Config.default
      fee.SelectionPolicy.default)
    ((Wallet.mk ⟨0⟩ (some (Addressing.new 9 AddrType.External))
        (some (Addressing.new 9 AddrType.Internal)) Config.default
        fee.SelectionPolicy.default).make_address
      (Addressing.new 3 AddrType.Internal))
    (Addressing.new 3 AddrType.Internal)
    ((Wallet.mk ⟨0⟩ (some (Addressing.new 9 AddrType.External))
        (some (Addressing.new 9 AddrType.Internal)) Config.default
        fee.SelectionPolicy.default).force_last_known_change
      (Addressing.new 3 AddrType.Internal))
    (by decide)

/-- Witness for C8 at a concrete fresh wallet. -/
theorem C8_witness :
    (Wallet.new_from_seed ⟨0⟩).last_known_address = none ∧
    ∃ a1 w1 a2 w2,
      (Wallet.new_from_seed ⟨0⟩).new_address = some (a1, w1) ∧
      w1.new_address = some (a2, w2) ∧
      a1 = (Wallet.new_from_seed ⟨0⟩).make_address
        (Addressing.new 0 AddrType.External) ∧
      a2 = (Wallet.new_from_seed ⟨0⟩).make_address
        (Addressing.new 1 AddrType.External) ∧
      a1 ≠ a2 :=
  ⟨rfl, C8_sequential_generation (Wallet.new_from_seed ⟨0⟩) rfl⟩

/-- C4: given candidate inputs (each spending from a factory-made address
of this wallet) whose total value covers the requested outputs plus the
computed fee, `new_transaction` returns a bundle whose transaction holds
the selected inputs' pointers in order and whose outputs are exactly the
requested outputs, then one fee output to the fee destination, then one
change output to the freshly generated change address; the witness list
has one witness per selected input, in input order, each signing the
transaction with that input's re-derived key. -/
theorem C4_transaction_shape (w : Wallet)
    (ins : List (TxoPointer × Addressing × Nat))
    (outputs : List TxOut) (fee_addr change_addr : ExtendedAddr)
    (w1 : Wallet) (inputs : List Input)
    (hins : inputs = ins.map fun pav =>
      (⟨pav.1, ⟨w.make_address pav.2.1, pav.2.2⟩⟩ : Input))
    (hrange : ∀ pav ∈ ins, (pav.2.1 : Addressing).index < boundary)
    (hchange : w.new_change = some (change_addr, w1))
    (hcover : (outputs.map fun o => o.value).sum +
        (fee.LinearFee.default.constant +
          fee.LinearFee.default.coefficient *
            (inputs.length + outputs.length + 2)) ≤
      (inputs.map fun i => i.value.value).sum) :
    ∃ w2 feeAmt change t,
      w.new_transaction inputs outputs fee_addr =
        some (.ok (TxAux.new t (ins.map fun pav =>
          TxInWitness.new w.config (w.get_xprv pav.2.1) t)), w2) ∧
      t.inputs = inputs.map (fun i => i.ptr) ∧
      t.outputs = outputs ++
        [TxOut.new fee_addr feeAmt, TxOut.new change_addr change] := by
  obtain ⟨a0, -, hw1eq, -⟩ := new_change_inv w change_addr w1 hchange
  have hs1 : w1.seed = w.seed := by rw [hw1eq]; rfl
  have hc1 : w1.config = w.config := by rw [hw1eq]; rfl
  have hcompute : fee.LinearFee.default.compute w1.selection_policy inputs
      outputs change_addr fee_addr =
      .ok (⟨fee.LinearFee.default.constant +
          fee.LinearFee.default.coefficient *
            (inputs.length + outputs.length + 2)⟩, inputs,
        (inputs.map fun i => i.value.value).sum -
          (outputs.map fun o => o.value).sum -
          (fee.LinearFee.default.constant +
            fee.LinearFee.default.coefficient *
              (inputs.length + outputs.length + 2))) := by
    simp only [fee.LinearFee.compute]
    rw [if_pos hcover]
  have hloop := signLoop_make_address w ins w1 hs1 hc1 hrange
  unfold Wallet.new_transaction
  rw [hchange]
  simp only [Option.map_some', hcompute]
  rw [hins]
  simp only [hloop]
  exact ⟨_, _, _, _, rfl, rfl, List.append_assoc _ _ _⟩

/-- Witness for C4: one covering input at a concrete wallet. -/
theorem C4_witness :
    ∃ w2 feeAmt change t,
      (Wallet.new_from_seed ⟨0⟩).new_transaction
        ([((⟨0, 0⟩ : TxoPointer), Addressing.new 3 AddrType.External, 1000000000)].map
          fun pav => (⟨pav.1, ⟨(Wallet.new_from_seed ⟨0⟩).make_address
            pav.2.1, pav.2.2⟩⟩ : Input))
        [TxOut.new ⟨.ATPubKey, .PubKeyASD ⟨0, []⟩, ⟨none⟩⟩ 100]
        ⟨.ATRedeem, .PubKeyASD ⟨0, []⟩, ⟨none⟩⟩ =
        some (.ok (TxAux.new t
          ([((⟨0, 0⟩ : TxoPointer), Addressing.new 3 AddrType.External, 1000000000)].map
            fun pav => TxInWitness.new (Wallet.new_from_seed ⟨0⟩).config
              ((Wallet.new_from_seed ⟨0⟩).get_xprv pav.2.1) t)), w2) ∧
      t.inputs = (([((⟨0, 0⟩ : TxoPointer), Addressing.new 3 AddrType.External,
          1000000000)].map
        fun pav => (⟨pav.1, ⟨(Wallet.new_from_seed ⟨0⟩).make_address
          pav.2.1, pav.2.2⟩⟩ : Input)).map (fun i => i.ptr)) ∧
      t.outputs = [TxOut.new ⟨.ATPubKey, .PubKeyASD ⟨0, []⟩, ⟨none⟩⟩ 100] ++
        [TxOut.new ⟨.ATRedeem, .PubKeyASD ⟨0, []⟩, ⟨none⟩⟩ feeAmt,
         TxOut.new (((Wallet.new_from_seed ⟨0⟩).force_last_known_address
             (Addressing.new 0 AddrType.Internal)).make_address
             (Addressing.new 0 AddrType.Internal)) change] :=
  C4_transaction_shape (Wallet.new_from_seed ⟨0⟩)
    [((⟨0, 0⟩ : TxoPointer), Addressing.new 3 AddrType.External, 1000000000)]
    [TxOut.new ⟨.ATPubKey, .PubKeyASD ⟨0, []⟩, ⟨none⟩⟩ 100]
    ⟨.ATRedeem, .PubKeyASD ⟨0, []⟩, ⟨none⟩⟩
    (((Wallet.new_from_seed ⟨0⟩).force_last_known_address
        (Addressing.new 0 AddrType.Internal)).make_address
      (Addressing.new 0 AddrType.Internal))
    ((Wallet.new_from_seed ⟨0⟩).force_last_known_address
      (Addressing.new 0 AddrType.Internal))
    _ rfl (by decide) (by decide) (by decide)

/-- C9: when the candidate inputs' total value is below the requested
outputs, the fee/selection algorithm fails, `new_transaction` wraps that
very error in `FeeCalculationError`, and no bundle is produced. -/
theorem C9_insufficient_funds (w : Wallet) (inputs : List Input)
    (outputs : List TxOut) (fee_addr change_addr : ExtendedAddr)
    (w1 : Wallet)
    (hchange : w.new_change = some (change_addr, w1))
    (hshort : (inputs.map fun i => i.value.value).sum <
      (outputs.map fun o => o.value).sum) :
    ∃ e : fee.Error,
      fee.LinearFee.default.compute w1.selection_policy inputs outputs
        change_addr fee_addr = .error e ∧
      w.new_transaction inputs outputs fee_addr =
        some (.error (.FeeCalculationError e), w1) := by
  have hcond : ¬ ((outputs.map fun o => o.value).sum +
      (fee.LinearFee.default.constant +
        fee.LinearFee.default.coefficient *
          (inputs.length + outputs.length + 2)) ≤
    (inputs.map fun i => i.value.value).sum) := by
    omega
  have hcompute : fee.LinearFee.default.compute w1.selection_policy inputs
      outputs change_addr fee_addr = .error fee.Error.NotEnoughInput := by
    simp only [fee.LinearFee.compute]
    rw [if_neg hcond]
  refine ⟨fee.Error.NotEnoughInput, hcompute, ?_⟩
  unfold Wallet.new_transaction
  rw [hchange]
  simp only [Option.map_some', hcompute]

/-- Witness for C9: no inputs, one requested output of value 5. -/
theorem C9_witness :
    ∃ e : fee.Error,
      fee.LinearFee.default.compute
        ((Wallet.new_from_seed ⟨0⟩).force_last_known_address
          (Addressing.new 0 AddrType.Internal)).selection_policy
        [] [TxOut.new ⟨.ATPubKey, .PubKeyASD ⟨0, []⟩, ⟨none⟩⟩ 5]
        (((Wallet.new_from_seed ⟨0⟩).force_last_known_address
            (Addressing.new 0 AddrType.Internal)).make_address
          (Addressing.new 0 AddrType.Internal))
        ⟨.ATRedeem, .PubKeyASD ⟨0, []⟩, ⟨none⟩⟩ = .error e ∧
      (Wallet.new_from_seed ⟨0⟩).new_transaction []
        [TxOut.new ⟨.ATPubKey, .PubKeyASD ⟨0, []⟩, ⟨none⟩⟩ 5]
        ⟨.ATRedeem, .PubKeyASD ⟨0, []⟩, ⟨none⟩⟩ =
        some (.error (.FeeCalculationError e),
          (Wallet.new_from_seed ⟨0⟩).force_last_known_address
            (Addressing.new 0 AddrType.Internal)) :=
  C9_insufficient_funds (Wallet.new_from_seed ⟨0⟩) []
    [TxOut.new ⟨.ATPubKey, .PubKeyASD ⟨0, []⟩, ⟨none⟩⟩ 5]
    ⟨.ATRedeem, .PubKeyASD ⟨0, []⟩, ⟨none⟩⟩
    (((Wallet.new_from_seed ⟨0⟩).force_last_known_address
        (Addressing.new 0 AddrType.Internal)).make_address
      (Addressing.new 0 AddrType.Internal))
    ((Wallet.new_from_seed ⟨0⟩).force_last_known_address
      (Addressing.new 0 AddrType.Internal))
    (by decide) (by decide)

/-- C10: `new_transaction` generates the change address first, so when
fee computation fails the call returns the error with the wallet already
mutated: the final state is exactly the post-`new_change` state, whose
`last_known_address` cursor holds the freshly generated next change
Addressing — nothing is rolled back. -/
theorem C10_failed_build_keeps_cursor_advance (w : Wallet)
    (inputs : List Input) (outputs : List TxOut)
    (fee_addr change_addr : ExtendedAddr) (w1 : Wallet) (e : fee.Error)
    (hchange : w.new_change = some (change_addr, w1))
    (hfail : fee.LinearFee.default.compute w1.selection_policy inputs
      outputs change_addr fee_addr = .error e) :
    w.new_transaction inputs outputs fee_addr =
      some (.error (.FeeCalculationError e), w1) ∧
    ∃ a : Addressing,
      w1 = w.force_last_known_address a ∧
      change_addr = w1.make_address a ∧
      (w.last_known_change = none ∧ a = Addressing.new 0 AddrType.Internal ∨
        ∃ lkp, w.last_known_change = some lkp ∧ lkp.incr 1 = some a) := by
  constructor
  · unfold Wallet.new_transaction
    rw [hchange]
    simp only [Option.map_some', hfail]
  · obtain ⟨a, hsrc, hw1, hca⟩ := new_change_inv w change_addr w1 hchange
    exact ⟨a, hw1, hca, hsrc⟩

/-- Witness for C10: a failing build at a concrete wallet whose change
cursor already sits at index 4. -/
theorem C10_witness :
    (Wallet.mk ⟨0⟩ none (some (Addressing.new 4 AddrType.Internal))
        Config.default fee.SelectionPolicy.default).new_transaction []
      [TxOut.new ⟨.ATPubKey, .PubKeyASD ⟨0, []⟩, ⟨none⟩⟩ 5]
      ⟨.ATRedeem, .PubKeyASD ⟨0, []⟩, ⟨none⟩⟩ =
      some (.error (.FeeCalculationError fee.Error.NotEnoughInput),
        (Wallet.mk ⟨0⟩ none (some (Addressing.new 4 AddrType.Internal))
            Config.default
            fee.SelectionPolicy.default).force_last_known_address
          (Addressing.new 5 AddrType.Internal)) ∧
    ∃ a : Addressing,
      ((Wallet.mk ⟨0⟩ none (some (Addressing.new 4 AddrType.Internal))
          Config.default
          fee.SelectionPolicy.default).force_last_known_address
        (Addressing.new 5 AddrType.Internal)) =
        (Wallet.mk ⟨0⟩ none (some (Addressing.new 4 AddrType.Internal))
          Config.default
          fee.SelectionPolicy.default).force_last_known_address a ∧
      ((Wallet.mk ⟨0⟩ none (some (Addressing.new 4 AddrType.Internal))
          Config.default
          fee.SelectionPolicy.default).force_last_known_address
        (Addressing.new 5 AddrType.Internal)).make_address
          (Addressing.new 5 AddrType.Internal) =
        ((Wallet.mk ⟨0⟩ none (some (Addressing.new 4 AddrType.Internal))
            Config.default
            fee.SelectionPolicy.default).force_last_known_address
          (Addressing.new 5 AddrType.Internal)).make_address a ∧
      ((Wallet.mk ⟨0⟩ none (some (Addressing.new 4 AddrType.Internal))
          Config.default
          fee.SelectionPolicy.default).last_known_change = none ∧
        a = Addressing.new 0 AddrType.Internal ∨
       ∃ lkp, (Wallet.mk ⟨0⟩ none
          (some (Addressing.new 4 AddrType.Internal)) Config.default
          fee.SelectionPolicy.default).last_known_change = some lkp ∧
        lkp.incr 1 = some a) :=
  C10_failed_build_keeps_cursor_advance
    (Wallet.mk ⟨0⟩ none (some (Addressing.new 4 AddrType.Internal))
      Config.default fee.SelectionPolicy.default)
    [] [TxOut.new ⟨.ATPubKey, .PubKeyASD ⟨0, []⟩, ⟨none⟩⟩ 5]
    ⟨.ATRedeem, .PubKeyASD ⟨0, []⟩, ⟨none⟩⟩
    (((Wallet.mk ⟨0⟩ none (some (Addressing.new 4 AddrType.Internal))
        Config.default
        fee.SelectionPolicy.default).force_last_known_address
      (Addressing.new 5 AddrType.Internal)).make_address
        (Addressing.new 5 AddrType.Internal))
    ((Wallet.mk ⟨0⟩ none (some (Addressing.new 4 AddrType.Internal))
        Config.default
        fee.SelectionPolicy.default).force_last_known_address
      (Addressing.new 5 AddrType.Internal))
    fee.Error.NotEnoughInput (by decide) (by decide)

end Cardano
